import Mathlib

/-
  Shallow embedding of the SmartDrive compliance-check service (src/main.py).

  The three upstream HTTP interactions are modelled as inputs of type
  `Except String α`: the `Except.error` case stands for any transport or
  top-level parse failure raised while talking to the upstream service
  (network error, timeout, non-2xx from raise_for_status, malformed body),
  carrying the stringified exception message; the `Except.ok` case carries
  the already-decoded upstream payload.  Clock readings (`datetime.now`)
  and parsed timestamps (`datetime.fromtimestamp`) are modelled as exact
  rational numbers of seconds since the Unix epoch; the platform-dependent
  calendar range limits of `fromtimestamp` and local-timezone rendering are
  outside the embedding.  Monetary amounts (Python floats) are modelled as
  exact rationals.
-/

namespace SmartDrive

/-- Character-wise lower-casing, the model of Python `str.lower()` as used on
the `lang` and `type` request fields. -/
def pyLower (s : String) : String := ⟨s.data.map Char.toLower⟩

/-- Character-wise upper-casing, the model of Python `str.upper()` as used on
the plate and on status titles. -/
def pyUpper (s : String) : String := ⟨s.data.map Char.toUpper⟩

/-- Python `int(float)` truncates toward zero. -/
def pyTrunc (q : ℚ) : ℤ := if 0 ≤ q then ⌊q⌋ else ⌈q⌉

/-- Value of a non-empty all-digit character list, `none` on any non-digit. -/
def digitsVal : List Char → Option ℕ
  | [] => none
  | l => l.foldlM (fun acc c => if c.isDigit then some (acc * 10 + (c.toNat - 48)) else none) 0

/-- Model of Python `int(str)`: an optional sign followed by decimal digits;
anything else raises ValueError, modelled as `none`. -/
def pyInt (s : String) : Option ℤ :=
  match s.data with
  | '-' :: rest => (digitsVal rest).map (fun n => -(n : ℤ))
  | '+' :: rest => (digitsVal rest).map (fun n => (n : ℤ))
  | l => (digitsVal l).map (fun n => (n : ℤ))

/-- Python `timedelta.days`: the whole-day component of a duration in seconds,
rounded toward negative infinity. -/
def timedeltaDays (seconds : ℚ) : ℤ := ⌊seconds / 86400⌋

/-! ### Traffic-penalty source (`get_traffic_penalties`) -/

/-- One pending transaction of the traffic-penalty upstream payload.
`t.get("charge", 0)` / `t.get("penalty", 0)` default missing fields to 0. -/
structure Ticket where
  charge : Option ℚ
  penalty : Option ℚ
deriving DecidableEq

/-- Decoded JSON body of the traffic-penalty upstream response: the `status`
field (absent modelled as `none`) and the `pending_transactions` list (a
missing or null list is falsy in Python exactly like the empty list, so both
are modelled as `[]`). -/
structure TrafficResp where
  status : Option String
  pending_transactions : List Ticket
deriving DecidableEq

/-- Return value of `get_traffic_penalties`: the `{"found": True, ...}`,
`{"found": False}` and `{"error": ...}` dict shapes. -/
inductive TrafficResult where
  | found (tickets : List Ticket) (total : ℤ)
  | notFound
  | error (msg : String)
deriving DecidableEq

/-- Embedding of `get_traffic_penalties` (src/main.py lines 18-30). -/
def get_traffic_penalties (resp : Except String TrafficResp) : TrafficResult :=
  match resp with
  | .error e => .error e
  | .ok data =>
    if data.status = some "success" ∧ data.pending_transactions ≠ [] then
      let tickets := data.pending_transactions
      let total := (tickets.map (fun t => pyTrunc (t.charge.getD 0 + t.penalty.getD 0))).sum
      .found tickets total
    else .notFound

/-! ### Parking-fee source (`get_parking_fees`) -/

/-- One bill of the parking upstream payload; `b["billAmount"]` raises
KeyError when absent, so the field is optional here. -/
structure Bill where
  billAmount : Option ℚ
deriving DecidableEq

/-- One element of the parking upstream JSON array; `.get("billDetails", [])`
defaults a missing list to `[]`. -/
structure ParkingItem where
  billDetails : Option (List Bill)
deriving DecidableEq

/-- Return value of `get_parking_fees`. -/
inductive ParkingResult where
  | found (bills : List Bill) (total : ℤ)
  | notFound
  | error (msg : String)
deriving DecidableEq

/-- Embedding of `get_parking_fees` (src/main.py lines 32-51).  Indexing
`res.json()[0]` on an empty array raises, caught by the enclosing handler;
a bill without `billAmount` likewise raises mid-sum. -/
def get_parking_fees (resp : Except String (List ParkingItem)) : ParkingResult :=
  match resp with
  | .error e => .error e
  | .ok [] => .error "list index out of range"
  | .ok (first :: _) =>
    let bills := first.billDetails.getD []
    if bills ≠ [] then
      match bills.mapM (fun b => b.billAmount) with
      | none => .error "KeyError: billAmount"
      | some amounts => .found bills (pyTrunc amounts.sum)
    else .notFound

/-! ### Insurance source (`get_insurance`) -/

/-- One `data` element of the insurance XML payload.  `findtext` returns a
default when the child element is absent, so both children are optional:
`statusTitle` defaults to `""`, `coverNoteEndDate` to `"0"`. -/
structure CoverageEntry where
  statusTitle : Option String
  coverNoteEndDate : Option String
deriving DecidableEq

/-- Return value of `get_insurance`: the `{"expired": True, "expired_days": ...}`,
`{"active": True, "valid_till": ..., "remaining_days": ...}` and
`{"error": ...}` dict shapes.  `valid_till` carries the end date as epoch
seconds; its `strftime` rendering is presentation only and not modelled. -/
inductive InsuranceResult where
  | expired (expired_days : Option ℤ)
  | active (valid_till : ℚ) (remaining_days : ℤ)
  | error (msg : String)
deriving DecidableEq

/-- The active-entry test of line 67: `e.findtext("statusTitle", "").upper() == "ACTIVE"`. -/
def isActiveEntry (e : CoverageEntry) : Bool := pyUpper (e.statusTitle.getD "") == "ACTIVE"

/-- Embedding of `get_insurance` (src/main.py lines 53-88), with `now` the
current clock reading in epoch seconds. -/
def get_insurance (now : ℚ) (resp : Except String (List CoverageEntry)) : InsuranceResult :=
  match resp with
  | .error e => .error e
  | .ok [] => .expired none
  | .ok (first :: rest) =>
    match (first :: rest).find? isActiveEntry with
    | none =>
      match pyInt (first.coverNoteEndDate.getD "0") with
      | none => .expired none
      | some ts =>
        let end_date : ℚ := (ts : ℚ) / 1000
        .expired (some (timedeltaDays (now - end_date)))
    | some act =>
      match pyInt (act.coverNoteEndDate.getD "0") with
      | none => .error "invalid literal for int() with base 10"
      | some ts =>
        let end_date : ℚ := (ts : ℚ) / 1000
        .active end_date (timedeltaDays (end_date - now))

/-! ### Aggregator (`check`) -/

/-- Decoded JSON body of the inbound POST request; each field is optional
and `data.get` supplies the defaults. -/
structure CheckRequest where
  plate : Option String
  lang : Option String
  type : Option String
deriving DecidableEq

/-- Line 109: the traffic-violation notification text by language. -/
def trafficMsg (lang : String) : String :=
  if lang = "en" then "🔴 Traffic Violation" else "🔴 Kuna makosa ya barabarani"

/-- Line 112: the unpaid-parking notification text by language. -/
def parkingMsg (lang : String) : String :=
  if lang = "en" then "🅿️ Unpaid Parking" else "🅿️ Kuna maegesho hayajalipwa"

/-- Line 115: the insurance-expired notification text by language. -/
def insuranceExpiredMsg (lang : String) : String :=
  if lang = "en" then "⚠️ Insurance Expired" else "⚠️ Bima imekwisha muda wake"

/-- Line 118: the insurance-expiring-soon notification text by language, with
the remaining-day count interpolated. -/
def expiringSoonMsg (lang : String) (d : ℤ) : String :=
  if lang = "en" then "⏳ Insurance expiring soon (" ++ toString d ++ " days left)"
  else "⏳ Bima inakaribia kuisha (" ++ toString d ++ " siku)"

/-- Truthiness of `traffic.get("found")`. -/
def trafficFound : TrafficResult → Bool
  | .found _ _ => true
  | _ => false

/-- Truthiness of `parking.get("found")`. -/
def parkingFound : ParkingResult → Bool
  | .found _ _ => true
  | _ => false

/-- Truthiness of `insurance.get("expired")`. -/
def insuranceExpired : InsuranceResult → Bool
  | .expired _ => true
  | _ => false

/-- Notification list built by lines 107-119, in the fixed order of the code. -/
def notificationsFor (traffic : TrafficResult) (parking : ParkingResult)
    (insurance : InsuranceResult) (lang : String) : List String :=
  (if trafficFound traffic then [trafficMsg lang] else []) ++
  (if parkingFound parking then [parkingMsg lang] else []) ++
  (if insuranceExpired insurance then [insuranceExpiredMsg lang] else []) ++
  (match insurance with
   | .active _ d => if d ≤ 10 then [expiringSoonMsg lang d] else []
   | _ => [])

/-- Shape of the JSON response body: the full report dict of lines 98-105
and 127, or the two-field summary dict of lines 122-125. -/
inductive ReportBody where
  | full (plate : String) (traffic_penalties : TrafficResult) (parking_fees : ParkingResult)
      (insurance : InsuranceResult) (notifications : List String)
  | summary (plate : String) (notifications : List String)
deriving DecidableEq

/-- HTTP response: status code plus body. -/
structure HttpResponse where
  status : ℕ
  body : ReportBody
deriving DecidableEq

/-- Embedding of the `/check` handler (src/main.py lines 90-132).  The three
upstream interactions and the clock are inputs of the handler.  The top-level
`except` of line 131 only fires on failures outside the embedded model
(e.g. a non-JSON request body), so the embedded handler always reaches
line 129 and returns status 200. -/
def check (req : CheckRequest) (trafficResp : Except String TrafficResp)
    (parkingResp : Except String (List ParkingItem))
    (insuranceResp : Except String (List CoverageEntry)) (now : ℚ) : HttpResponse :=
  let plate := pyUpper (req.plate.getD "")
  let lang := pyLower (req.lang.getD "en")
  let detail_type := pyLower (req.type.getD "full")
  let traffic := get_traffic_penalties trafficResp
  let parking := get_parking_fees parkingResp
  let insurance := get_insurance now insuranceResp
  let notifications := notificationsFor traffic parking insurance lang
  if detail_type = "summary" then ⟨200, .summary plate notifications⟩
  else ⟨200, .full plate traffic parking insurance notifications⟩

/-! ### Helper lemmas -/

theorem pyTrunc_of_nonneg {q : ℚ} (h : 0 ≤ q) : pyTrunc q = ⌊q⌋ := if_pos h

theorem str_data_append (a b : String) : (a ++ b).data = a.data ++ b.data := rfl

/-! ### C4 and C5: the two totals -/

/-- C4: for a successful traffic-penalty lookup, the total is the sum over
tickets of the floor of `charge + penalty` — each item truncated before
accumulation (truncate-then-sum), not one truncation of the grand sum. -/
theorem C4_traffic_total_truncates_each_item (d : TrafficResp)
    (hs : d.status = some "success") (hne : d.pending_transactions ≠ [])
    (hnn : ∀ t ∈ d.pending_transactions, 0 ≤ t.charge.getD 0 + t.penalty.getD 0) :
    get_traffic_penalties (.ok d) =
      .found d.pending_transactions
        ((d.pending_transactions.map (fun t => ⌊t.charge.getD 0 + t.penalty.getD 0⌋)).sum) := by
  simp only [get_traffic_penalties]
  rw [if_pos ⟨hs, hne⟩]
  refine congrArg (TrafficResult.found d.pending_transactions) ?_
  refine congrArg List.sum ?_
  apply List.map_congr_left
  intro t ht
  exact pyTrunc_of_nonneg (hnn t ht)

/-- C4 witness: tickets `[{charge:10.6, penalty:5}, {charge:3, penalty:2.9}]`
give total `⌊15.6⌋ + ⌊5.9⌋ = 15 + 5 = 20`, not `⌊21.5⌋ = 21`. -/
theorem C4_witness :
    get_traffic_penalties (.ok ⟨some "success", [⟨some 10.6, some 5⟩, ⟨some 3, some 2.9⟩]⟩) =
      .found [⟨some 10.6, some 5⟩, ⟨some 3, some 2.9⟩] 20 ∧ (20 : ℤ) ≠ ⌊(10.6 : ℚ) + 5 + (3 + 2.9)⌋ := by
  constructor
  · have h := C4_traffic_total_truncates_each_item
      ⟨some "success", [⟨some 10.6, some 5⟩, ⟨some 3, some 2.9⟩]⟩ rfl (by simp)
      (by intro t ht; simp only [List.mem_cons, List.not_mem_nil, or_false] at ht
          rcases ht with rfl | rfl <;> norm_num)
    rw [h]
    norm_num
  · norm_num

/-- C5: for a non-empty bill list, the parking total is the floor of the sum
of the bill amounts, with a single truncation applied at the end. -/
theorem C5_parking_total_single_truncation (first : ParkingItem) (rest : List ParkingItem)
    (bills : List Bill) (amounts : List ℚ)
    (hb : first.billDetails = some bills) (hne : bills ≠ [])
    (hm : bills.mapM (fun b => b.billAmount) = some amounts)
    (hnn : 0 ≤ amounts.sum) :
    get_parking_fees (.ok (first :: rest)) = .found bills ⌊amounts.sum⌋ := by
  simp only [get_parking_fees, hb, Option.getD_some]
  rw [if_pos hne, hm]
  show ParkingResult.found bills (pyTrunc amounts.sum) = _
  rw [pyTrunc_of_nonneg hnn]

/-- C5 witness: bills `[1200.4, 300.3]` give total `⌊1500.7⌋ = 1500`. -/
theorem C5_witness :
    get_parking_fees (.ok [⟨some [⟨some 1200.4⟩, ⟨some 300.3⟩]⟩]) =
      .found [⟨some 1200.4⟩, ⟨some 300.3⟩] 1500 := by
  have h := C5_parking_total_single_truncation ⟨some [⟨some 1200.4⟩, ⟨some 300.3⟩]⟩ []
    [⟨some 1200.4⟩, ⟨some 300.3⟩] [1200.4, 300.3] rfl (by simp) rfl (by norm_num)
  rw [h]
  norm_num

/-! ### C6: the no-active-entry branch -/

/-- C6: when entries exist but none has status title case-insensitively equal
to "ACTIVE", the fetch uses the first entry in document order, reads its end
date as epoch milliseconds divided by 1000, and returns `Expired` with
`expiredDays` the whole-day difference of now minus the end date. -/
theorem C6_no_active_uses_first_entry (now : ℚ) (first : CoverageEntry)
    (rest : List CoverageEntry)
    (hna : ∀ e ∈ first :: rest, pyUpper (e.statusTitle.getD "") ≠ "ACTIVE")
    (ts : ℤ) (hts : pyInt (first.coverNoteEndDate.getD "0") = some ts) :
    get_insurance now (.ok (first :: rest)) =
      .expired (some ⌊(now - (ts : ℚ) / 1000) / 86400⌋) := by
  have hfind : (first :: rest).find? isActiveEntry = none := by
    rw [List.find?_eq_none]
    intro e he
    simpa [isActiveEntry] using hna e he
  simp only [get_insurance, hfind, hts]
  rfl

/-- C6 witness: one non-active entry with end date 1697000000000 ms
(= 1697000000 s); at now = 1700000000 s the difference is 3000000 s, i.e.
`⌊3000000 / 86400⌋ = 34` whole days expired. -/
theorem C6_witness :
    get_insurance 1700000000 (.ok [⟨some "EXPIRED", some "1697000000000"⟩]) =
      .expired (some 34) := by
  have h := C6_no_active_uses_first_entry 1700000000 ⟨some "EXPIRED", some "1697000000000"⟩ []
    (by intro e he
        simp only [List.mem_cons, List.not_mem_nil, or_false] at he
        subst he
        decide)
    1697000000000 (by decide)
  rw [h]
  norm_num

/-! ### C1 and C2: the zero-entry and missing-end-date branches -/

/-- C1 counterexample: a response with zero coverage entries yields the
expired-shaped result `{expired: true, expired_days: null}` (line 65), on
which the aggregator derives the "Insurance Expired" notification (line 114)
— so an insurance notification IS derived, contrary to the claim. -/
theorem C1_counterexample :
    get_insurance 1700000000 (Except.ok []) = .expired none ∧
    insuranceExpiredMsg "en" ∈
      notificationsFor .notFound .notFound (get_insurance 1700000000 (Except.ok [])) "en" := by
  constructor
  · rfl
  · show insuranceExpiredMsg "en" ∈ notificationsFor .notFound .notFound (.expired none) "en"
    simp [notificationsFor, insuranceExpired, trafficFound, parkingFound]

/-- C1 (amended): for every upstream response that parses with zero `data`
coverage entries, the insurance fetch returns the expired-shaped result with
`expired_days` null — the code has no separate NoRecord state — and
consequently the "Insurance Expired" notification IS derived for the request,
whatever the other two sources returned. -/
theorem C1_zero_entries_expired_shape (now : ℚ) (lang : String) (tr : TrafficResult)
    (pr : ParkingResult) :
    get_insurance now (Except.ok []) = .expired none ∧
    insuranceExpiredMsg lang ∈
      notificationsFor tr pr (get_insurance now (Except.ok [])) lang := by
  refine ⟨rfl, ?_⟩
  show insuranceExpiredMsg lang ∈ notificationsFor tr pr (.expired none) lang
  simp only [notificationsFor, insuranceExpired, if_true, List.mem_append]
  exact Or.inl (Or.inr (by simp))

/-- C2 counterexample: an entry whose `coverNoteEndDate` element is MISSING
takes the `findtext` default `"0"`, which parses as epoch 0, so the call
returns `Expired` with a concrete day count (days from the epoch to now:
19675 at now = 1700000000), not `expiredDays` unknown. -/
theorem C2_counterexample :
    get_insurance 1700000000 (Except.ok [⟨some "EXPIRED", none⟩]) = .expired (some 19675) ∧
    get_insurance 1700000000 (Except.ok [⟨some "EXPIRED", none⟩]) ≠ .expired none := by
  have h1 : ([(⟨some "EXPIRED", none⟩ : CoverageEntry)]).find? isActiveEntry = none := by decide
  have h2 : pyInt ((none : Option String).getD "0") = some 0 := by decide
  have h : get_insurance 1700000000 (Except.ok [⟨some "EXPIRED", none⟩]) =
      .expired (some (timedeltaDays (1700000000 - (0 : ℤ) / 1000))) := by
    simp only [get_insurance, h1, h2]
  rw [h]
  norm_num [timedeltaDays]
  exact Option.some_ne_none _

/-- C2 (amended): in the no-active-entry branch, an UNPARSEABLE end-date text
yields `Expired` with `expiredDays` unknown (null) rather than an error-result
and rather than failing the call; a MISSING end-date element however defaults
to `"0"`, parsing as the epoch, so the call returns `Expired` with
`expiredDays` equal to the whole days from the epoch to now. -/
theorem C2_end_date_missing_or_unparseable (now : ℚ) (first : CoverageEntry)
    (rest : List CoverageEntry)
    (hna : (first :: rest).find? isActiveEntry = none) :
    (∀ s, first.coverNoteEndDate = some s → pyInt s = none →
      get_insurance now (.ok (first :: rest)) = .expired none) ∧
    (first.coverNoteEndDate = none →
      get_insurance now (.ok (first :: rest)) = .expired (some ⌊now / 86400⌋)) := by
  constructor
  · intro s hs hp
    simp only [get_insurance, hna, hs, Option.getD_some, hp]
  · intro hn
    have h2 : pyInt ((none : Option String).getD "0") = some 0 := by decide
    simp only [get_insurance, hna, hn, h2]
    show InsuranceResult.expired (some (timedeltaDays (now - (0 : ℤ) / 1000))) = _
    norm_num [timedeltaDays]

/-- C2 witness: at now = 123456789 s, an entry with unparseable end-date text
"notadate" gives `Expired` unknown, while an entry with no end-date element
gives `Expired` with `⌊123456789 / 86400⌋ = 1428` days. -/
theorem C2_witness :
    get_insurance 123456789 (Except.ok [⟨some "EXPIRED", some "notadate"⟩]) = .expired none ∧
    get_insurance 123456789 (Except.ok [⟨some "EXPIRED", none⟩]) = .expired (some 1428) := by
  constructor
  · exact (C2_end_date_missing_or_unparseable 123456789 ⟨some "EXPIRED", some "notadate"⟩ []
      (by decide)).1 "notadate" rfl (by decide)
  · have h := (C2_end_date_missing_or_unparseable 123456789 ⟨some "EXPIRED", none⟩ []
      (by decide)).2 rfl
    rw [h]
    norm_num

/-! ### C3: bulkhead isolation and the always-200 response -/

/-- C3: each source fetch converts any of its own failures into an
error-result instead of raising; the response status of the aggregator is always
200; and in full mode the report contains all three sub-results, each
computed from its own upstream interaction alone — so an error-result from
one source never blocks the other two. -/
theorem C3_source_failures_isolated :
    (∀ m, get_traffic_penalties (Except.error m) = .error m) ∧
    (∀ m, get_parking_fees (Except.error m) = .error m) ∧
    (∀ (now : ℚ) m, get_insurance now (Except.error m) = .error m) ∧
    (∀ req t p i now, (check req t p i now).status = 200) ∧
    (∀ req t p i now, pyLower (req.type.getD "full") ≠ "summary" →
      (check req t p i now).body =
        .full (pyUpper (req.plate.getD "")) (get_traffic_penalties t) (get_parking_fees p)
          (get_insurance now i)
          (notificationsFor (get_traffic_penalties t) (get_parking_fees p)
            (get_insurance now i) (pyLower (req.lang.getD "en")))) := by
  refine ⟨fun m => rfl, fun m => rfl, fun now m => rfl, ?_, ?_⟩
  · intro req t p i now
    simp only [check]
    split <;> rfl
  · intro req t p i now h
    simp only [check]
    rw [if_neg h]

/-- C3 witness: with all three upstream interactions failing (connection
error, timeout, TLS error), the full report still carries all three
error-results and the status is 200. -/
theorem C3_witness :
    check ⟨some "t465", some "en", none⟩ (Except.error "connection error")
        (Except.error "timeout") (Except.error "ssl error") 0 =
      ⟨200, .full "T465" (.error "connection error") (.error "timeout") (.error "ssl error") []⟩ := by
  have hs := C3_source_failures_isolated.2.2.2.1 ⟨some "t465", some "en", none⟩
    (Except.error "connection error") (Except.error "timeout") (Except.error "ssl error") 0
  have hb := C3_source_failures_isolated.2.2.2.2 ⟨some "t465", some "en", none⟩
    (Except.error "connection error") (Except.error "timeout") (Except.error "ssl error") 0
    (by decide)
  have hsplit : check ⟨some "t465", some "en", none⟩ (Except.error "connection error")
      (Except.error "timeout") (Except.error "ssl error") 0 =
      ⟨(check ⟨some "t465", some "en", none⟩ (Except.error "connection error")
        (Except.error "timeout") (Except.error "ssl error") 0).status,
       (check ⟨some "t465", some "en", none⟩ (Except.error "connection error")
        (Except.error "timeout") (Except.error "ssl error") 0).body⟩ := rfl
  rw [hsplit, hs, hb]
  decide

/-! ### C8: summary versus full shape -/

/-- C8: a request whose detail type normalizes to "summary" gets a body
holding exactly the plate and the notifications, whatever the three sources
returned; any other detail type gets the full report with the three
sub-results and the notifications appended. -/
theorem C8_summary_vs_full_shape (req : CheckRequest) (t : Except String TrafficResp)
    (p : Except String (List ParkingItem)) (i : Except String (List CoverageEntry)) (now : ℚ) :
    (pyLower (req.type.getD "full") = "summary" →
      (check req t p i now).body =
        .summary (pyUpper (req.plate.getD ""))
          (notificationsFor (get_traffic_penalties t) (get_parking_fees p)
            (get_insurance now i) (pyLower (req.lang.getD "en")))) ∧
    (pyLower (req.type.getD "full") ≠ "summary" →
      (check req t p i now).body =
        .full (pyUpper (req.plate.getD "")) (get_traffic_penalties t) (get_parking_fees p)
          (get_insurance now i)
          (notificationsFor (get_traffic_penalties t) (get_parking_fees p)
            (get_insurance now i) (pyLower (req.lang.getD "en")))) := by
  constructor
  · intro h
    simp only [check]
    rw [if_pos h]
  · intro h
    simp only [check]
    rw [if_neg h]

/-- C8 witness: with all sources failing, a `type: "summary"` request yields
exactly `{plate, notifications}` while a `type: "full"` request yields the
full report. -/
theorem C8_witness :
    (check ⟨some "ab1", none, some "summary"⟩ (Except.error "t") (Except.error "p")
      (Except.error "i") 0).body = .summary "AB1" [] ∧
    (check ⟨some "ab1", none, some "full"⟩ (Except.error "t") (Except.error "p")
      (Except.error "i") 0).body =
      .full "AB1" (.error "t") (.error "p") (.error "i") [] := by
  constructor
  · have h := (C8_summary_vs_full_shape ⟨some "ab1", none, some "summary"⟩ (Except.error "t")
      (Except.error "p") (Except.error "i") 0).1 (by decide)
    rw [h]
    decide
  · have h := (C8_summary_vs_full_shape ⟨some "ab1", none, some "full"⟩ (Except.error "t")
      (Except.error "p") (Except.error "i") 0).2 (by decide)
    rw [h]
    decide

/-! ### C9: the two-way language switch -/

/-- C9: notification wording is a two-way switch on the language value:
exactly "en" selects the English wording and every other value selects the
Swahili wording, for all four notification kinds. -/
theorem C9_two_way_language_switch (lang : String) :
    (lang = "en" →
      trafficMsg lang = "🔴 Traffic Violation" ∧
      parkingMsg lang = "🅿️ Unpaid Parking" ∧
      insuranceExpiredMsg lang = "⚠️ Insurance Expired" ∧
      ∀ d : ℤ, expiringSoonMsg lang d =
        "⏳ Insurance expiring soon (" ++ toString d ++ " days left)") ∧
    (lang ≠ "en" →
      trafficMsg lang = "🔴 Kuna makosa ya barabarani" ∧
      parkingMsg lang = "🅿️ Kuna maegesho hayajalipwa" ∧
      insuranceExpiredMsg lang = "⚠️ Bima imekwisha muda wake" ∧
      ∀ d : ℤ, expiringSoonMsg lang d =
        "⏳ Bima inakaribia kuisha (" ++ toString d ++ " siku)") := by
  constructor <;> intro h <;>
    refine ⟨?_, ?_, ?_, fun d => ?_⟩ <;>
    simp [trafficMsg, parkingMsg, insuranceExpiredMsg, expiringSoonMsg, h]

/-- C9 witness: the unrecognized language value "fr" selects the Swahili
wording of all four notification kinds. -/
theorem C9_witness :
    trafficMsg "fr" = "🔴 Kuna makosa ya barabarani" ∧
    parkingMsg "fr" = "🅿️ Kuna maegesho hayajalipwa" ∧
    insuranceExpiredMsg "fr" = "⚠️ Bima imekwisha muda wake" ∧
    expiringSoonMsg "fr" 3 = "⏳ Bima inakaribia kuisha (3 siku)" := by
  have h := (C9_two_way_language_switch "fr").2 (by decide)
  exact ⟨h.1, h.2.1, h.2.2.1, (h.2.2.2 3).trans (by decide)⟩

/-! ### C10: case-insensitivity of lang and type -/

/-- C10: the `lang` and `type` request fields are lower-cased on receipt
before any comparison, so a request with `lang: "EN"` and `type: "SUMMARY"`
behaves exactly like one with `"en"` and `"summary"`: it gets the summary
shape and its notifications are built with the English language value. -/
theorem C10_mixed_case_lang_and_type (pl : Option String) (t : Except String TrafficResp)
    (p : Except String (List ParkingItem)) (i : Except String (List CoverageEntry)) (now : ℚ) :
    check ⟨pl, some "EN", some "SUMMARY"⟩ t p i now =
      check ⟨pl, some "en", some "summary"⟩ t p i now ∧
    check ⟨pl, some "EN", some "SUMMARY"⟩ t p i now =
      ⟨200, .summary (pyUpper (pl.getD ""))
        (notificationsFor (get_traffic_penalties t) (get_parking_fees p)
          (get_insurance now i) "en")⟩ := by
  have h1 : pyLower "EN" = "en" := by decide
  have h2 : pyLower "SUMMARY" = "summary" := by decide
  have h3 : pyLower "en" = "en" := by decide
  have h4 : pyLower "summary" = "summary" := by decide
  constructor
  · simp only [check, Option.getD_some, h1, h2, h3, h4]
  · simp only [check, Option.getD_some, h1, h2, if_true]

/-! ### C7: the expiring-soon notification -/

theorem head_ne {a b : String} {c₁ c₂ : Char} (h₁ : a.data.head? = some c₁)
    (h₂ : b.data.head? = some c₂) (hc : c₁ ≠ c₂) : a ≠ b := by
  intro h
  subst h
  rw [h₁] at h₂
  exact hc (Option.some.inj h₂)

theorem expiringSoonMsg_head (lang : String) (d : ℤ) :
    (expiringSoonMsg lang d).data.head? = some '⏳' := by
  unfold expiringSoonMsg
  split <;> rfl

theorem trafficMsg_head (lang : String) : (trafficMsg lang).data.head? = some '🔴' := by
  unfold trafficMsg
  split <;> rfl

theorem parkingMsg_head (lang : String) : (parkingMsg lang).data.head? = some '🅿' := by
  unfold parkingMsg
  split <;> rfl

theorem insuranceExpiredMsg_head (lang : String) :
    (insuranceExpiredMsg lang).data.head? = some '⚠' := by
  unfold insuranceExpiredMsg
  split <;> rfl

theorem expiringSoonMsg_ne_trafficMsg (lang : String) (d : ℤ) :
    expiringSoonMsg lang d ≠ trafficMsg lang :=
  head_ne (expiringSoonMsg_head lang d) (trafficMsg_head lang) (by decide)

theorem expiringSoonMsg_ne_parkingMsg (lang : String) (d : ℤ) :
    expiringSoonMsg lang d ≠ parkingMsg lang :=
  head_ne (expiringSoonMsg_head lang d) (parkingMsg_head lang) (by decide)

theorem expiringSoonMsg_ne_insuranceExpiredMsg (lang : String) (d : ℤ) :
    expiringSoonMsg lang d ≠ insuranceExpiredMsg lang :=
  head_ne (expiringSoonMsg_head lang d) (insuranceExpiredMsg_head lang) (by decide)

theorem mem_if_singleton {α : Type} {s m : α} {c : Prop} [Decidable c] :
    s ∈ (if c then [m] else []) ↔ c ∧ s = m := by
  split_ifs with h <;> simp [h]

/-- C7: the expiring-soon notification is emitted exactly when the insurance
result is `Active` with `remainingDays ≤ 10` (with the day count
interpolated); it is never emitted for an expired or error insurance
result. -/
theorem C7_expiring_soon_iff_active_le_ten (tr : TrafficResult) (pr : ParkingResult)
    (lang : String) (v : ℚ) (d : ℤ) :
    (expiringSoonMsg lang d ∈ notificationsFor tr pr (.active v d) lang ↔ d ≤ 10) ∧
    (∀ ed d', expiringSoonMsg lang d' ∉ notificationsFor tr pr (.expired ed) lang) ∧
    (∀ m d', expiringSoonMsg lang d' ∉ notificationsFor tr pr (.error m) lang) := by
  refine ⟨⟨?_, ?_⟩, ?_, ?_⟩
  · intro hmem
    simp only [notificationsFor, insuranceExpired, List.mem_append, mem_if_singleton,
      List.not_mem_nil, or_false, false_and, false_or, Bool.false_eq_true, if_false] at hmem
    rcases hmem with (⟨-, h⟩ | ⟨-, h⟩) | ⟨hle, -⟩
    · exact absurd h (expiringSoonMsg_ne_trafficMsg lang d)
    · exact absurd h (expiringSoonMsg_ne_parkingMsg lang d)
    · exact hle
  · intro hle
    simp only [notificationsFor, insuranceExpired, List.mem_append, mem_if_singleton,
      List.not_mem_nil, or_false, false_and, false_or, Bool.false_eq_true, if_false]
    exact Or.inr ⟨hle, trivial⟩
  · intro ed d' hmem
    simp only [notificationsFor, insuranceExpired, List.mem_append, mem_if_singleton,
      if_true, List.mem_singleton, List.not_mem_nil, or_false] at hmem
    rcases hmem with (⟨-, h⟩ | ⟨-, h⟩) | h
    · exact absurd h (expiringSoonMsg_ne_trafficMsg lang d')
    · exact absurd h (expiringSoonMsg_ne_parkingMsg lang d')
    · exact absurd h (expiringSoonMsg_ne_insuranceExpiredMsg lang d')
  · intro m d' hmem
    simp only [notificationsFor, insuranceExpired, List.mem_append, mem_if_singleton,
      List.not_mem_nil, or_false, Bool.false_eq_true, false_and, false_or, if_false] at hmem
    rcases hmem with ⟨-, h⟩ | ⟨-, h⟩
    · exact absurd h (expiringSoonMsg_ne_trafficMsg lang d')
    · exact absurd h (expiringSoonMsg_ne_parkingMsg lang d')

/-- C7 witness: an `Active` result with 5 remaining days emits the
expiring-soon notification, one with 20 remaining days does not. -/
theorem C7_witness :
    expiringSoonMsg "en" 5 ∈
      notificationsFor .notFound .notFound (.active 1700432000 5) "en" ∧
    expiringSoonMsg "en" 20 ∉
      notificationsFor .notFound .notFound (.active 1701728000 20) "en" := by
  constructor
  · exact (C7_expiring_soon_iff_active_le_ten .notFound .notFound "en" 1700432000 5).1.mpr
      (by norm_num)
  · intro h
    exact absurd
      ((C7_expiring_soon_iff_active_le_ten .notFound .notFound "en" 1701728000 20).1.mp h)
      (by norm_num)

end SmartDrive
